import Mathlib

/-!
Shallow embedding of `hybrid_search.py` from kairess/hybrid-search-movie:
the filter construction (`create_filter`) and the hybrid search executor
(`search_couchbase`), together with a semantic model of filter evaluation
by the document store.
-/

/-- A single filter condition, mirroring the dict shapes built by
`create_filter`: a numeric range over a field (both bounds with their own
inclusivity flags), a lower-bound threshold over a field, or a phrase
match against a text field. -/
inductive FilterOp where
  | range (min max : ℤ) (inclusive_min inclusive_max : Bool) (field : String)
  | threshold (min : ℚ) (inclusive_min : Bool) (field : String)
  | match_phrase (phrase : String) (field : String)
  deriving DecidableEq, Repr

/-- The `{"conjuncts": [...]}` inner dict of the filter. -/
structure ConjunctQuery where
  conjuncts : List FilterOp
  deriving DecidableEq, Repr

/-- The `{"query": {"conjuncts": [...]}}` dict returned by `create_filter`. -/
structure SearchFilter where
  query : ConjunctQuery
  deriving DecidableEq, Repr

/-- `year_field = "Released_Year"` in `create_filter`. -/
def year_field : String := "Released_Year"

/-- `rating_field = "IMDB_Rating"` in `create_filter`. -/
def rating_field : String := "IMDB_Rating"

/-- `title_field = "Series_Title"` in `create_filter`. -/
def title_field : String := "Series_Title"

/-- Embedding of `create_filter(year_range, rating, search_in_title, title)`.
`year_range` is `Option (ℤ × ℤ)`: Python's `if year_range:` is falsy exactly
when no range tuple is supplied.  `rating : ℚ` models the Python float; the
code's `if rating:` is truthy exactly when `rating ≠ 0`.  The three branches
append their conditions in source order: year, then rating, then title. -/
def create_filter (year_range : Option (ℤ × ℤ)) (rating : ℚ)
    (search_in_title : Bool) (title : String) : SearchFilter :=
  let ops0 : List FilterOp :=
    match year_range with
    | some (lo, hi) => [FilterOp.range lo hi true true year_field]
    | none => []
  let ops1 : List FilterOp :=
    ops0 ++ (if rating = 0 then [] else [FilterOp.threshold rating false rating_field])
  let ops2 : List FilterOp :=
    ops1 ++ (if search_in_title then [FilterOp.match_phrase title title_field] else [])
  { query := { conjuncts := ops2 } }

/-- A movie document, restricted to the attributes the filter fields name. -/
structure MovieDoc where
  released_year : ℚ
  imdb_rating : ℚ
  series_title : String
  deriving DecidableEq, Repr

/-- Numeric attribute lookup by the field names `create_filter` uses. -/
def MovieDoc.numField (d : MovieDoc) (f : String) : ℚ :=
  if f = year_field then d.released_year
  else if f = rating_field then d.imdb_rating
  else 0

/-- Text attribute lookup by field name. -/
def MovieDoc.textField (d : MovieDoc) (f : String) : String :=
  if f = title_field then d.series_title else ""

/-- Modelled from the spec: how the document store (an external collaborator,
not part of this repository) evaluates one filter condition against a
document.  A range condition compares the named numeric field against both
bounds, each inclusively or strictly per its flag; a threshold condition
compares against its lower bound; a phrase match requires the phrase to occur
in the named text field. -/
def FilterOp.evalOn (d : MovieDoc) : FilterOp → Bool
  | .range lo hi imin imax f =>
      (if imin then decide ((lo : ℚ) ≤ d.numField f) else decide ((lo : ℚ) < d.numField f))
      && (if imax then decide (d.numField f ≤ (hi : ℚ)) else decide (d.numField f < (hi : ℚ)))
  | .threshold lo imin f =>
      if imin then decide (lo ≤ d.numField f) else decide (lo < d.numField f)
  | .match_phrase p f =>
      decide (List.IsInfix p.data (d.textField f).data)

/-- Modelled from the spec: a document matches the filter iff it satisfies
every conjunct; the empty conjunction matches everything. -/
def SearchFilter.matchesDoc (flt : SearchFilter) (d : MovieDoc) : Bool :=
  flt.query.conjuncts.all (FilterOp.evalOn d)

/-- Rank of a condition by the fixed field order year → rating → title. -/
def FilterOp.fieldRank : FilterOp → ℕ
  | .range _ _ _ _ _ => 0
  | .threshold _ _ _ => 1
  | .match_phrase _ _ => 2

/-- Failure of the embedding provider (spec taxonomy: EmbeddingFailure). -/
structure EmbeddingFailure where
  msg : String
  deriving DecidableEq, Repr

/-- Failure of the document store call (spec taxonomy: StoreQueryFailure). -/
structure StoreQueryFailure where
  msg : String
  deriving DecidableEq, Repr

/-- An invalid-configuration failure (spec taxonomy: ConfigurationError). -/
structure ConfigurationError where
  msg : String
  deriving DecidableEq, Repr

/-- The distinct error kinds `search_couchbase` can propagate. -/
inductive SearchError where
  | embedding (e : EmbeddingFailure)
  | config (e : ConfigurationError)
  | store (e : StoreQueryFailure)
  deriving DecidableEq, Repr

/-- The couchbase SDK VectorQuery value: target field, query vector,
number of nearest neighbors. -/
structure VectorQuery where
  field : String
  vector : List ℚ
  num_candidates : ℤ
  deriving DecidableEq, Repr

/-- Modelled from the spec: the couchbase SDK (an external collaborator,
not part of this repository) constructs `VectorQuery(field, vector, k)`
enforcing the invariant k ≥ 1, failing with a configuration error
(InvalidArgumentException) for k < 1 before any request is submitted. -/
def VectorQuery.create (field : String) (vector : List ℚ) (num_candidates : ℤ) :
    Except ConfigurationError VectorQuery :=
  if 1 ≤ num_candidates then Except.ok ⟨field, vector, num_candidates⟩
  else Except.error ⟨"num_candidates must be >= 1"⟩

/-- The SDK VectorSearch wrapper holding the vector queries. -/
structure VectorSearch where
  vector_queries : List VectorQuery
  deriving DecidableEq, Repr

/-- `VectorSearch.from_vector_query(vq)`: a VectorSearch with that single query. -/
def VectorSearch.from_vector_query (vq : VectorQuery) : VectorSearch :=
  ⟨[vq]⟩

/-- `search.SearchRequest` as used here: just the vector search payload. -/
structure SearchRequest where
  vector_search : VectorSearch
  deriving DecidableEq, Repr

/-- `search.SearchRequest.create(vs)`. -/
def SearchRequest.create (vs : VectorSearch) : SearchRequest :=
  ⟨vs⟩

/-- `SearchOptions(limit=k, fields=fields, raw=search_options)`. -/
structure SearchOptions where
  limit : ℤ
  fields : List String
  raw : SearchFilter
  deriving DecidableEq, Repr

/-- The raw field-value mapping a store hit carries. -/
abbrev RowFields : Type := List (String × String)

/-- One raw hit returned by the store: its fields and its score. -/
structure SearchRow where
  fields : RowFields
  score : ℚ
  deriving DecidableEq, Repr

/-- Embedding of `generate_embeddings(input_data)`: the Google embedding
call is an external collaborator, passed in as the oracle `embed`; on
provider error it fails with an EmbeddingFailure. -/
def generate_embeddings (embed : String → Except EmbeddingFailure (List ℚ))
    (input_data : String) : Except EmbeddingFailure (List ℚ) :=
  embed input_data

/-- Embedding of `search_couchbase(db_scope, index_name, embedding_key,
search_text, k, fields, search_options)`.  The store capability
`db_scope.search` is the oracle `store`, which receives exactly the index
name, the constructed SearchRequest and the SearchOptions; on store error
it fails with a StoreQueryFailure.  The row loop appends
`(row.fields, row.score)` per hit in store order; the source's
`except ... raise e` re-raises, so every failure propagates. -/
def search_couchbase
    (embed : String → Except EmbeddingFailure (List ℚ))
    (store : String → SearchRequest → SearchOptions → Except StoreQueryFailure (List SearchRow))
    (index_name : String) (embedding_key : String) (search_text : String)
    (k : ℤ) (fields : List String) (search_options : SearchFilter) :
    Except SearchError (List (RowFields × ℚ)) :=
  match generate_embeddings embed search_text with
  | Except.error e => Except.error (SearchError.embedding e)
  | Except.ok search_embedding =>
    match VectorQuery.create embedding_key search_embedding k with
    | Except.error e => Except.error (SearchError.config e)
    | Except.ok vq =>
      let search_req := SearchRequest.create (VectorSearch.from_vector_query vq)
      match store index_name search_req ⟨k, fields, search_options⟩ with
      | Except.error e => Except.error (SearchError.store e)
      | Except.ok rows => Except.ok (rows.map fun row => (row.fields, row.score))

/-- The filter that constrains nothing: `create_filter` output with every
input absent. -/
def emptyFilter : SearchFilter := ⟨⟨[]⟩⟩

lemma evalOn_rating_threshold (d : MovieDoc) (r : ℚ) :
    FilterOp.evalOn d (FilterOp.threshold r false rating_field) =
      decide (r < d.imdb_rating) := by
  have h1 : rating_field ≠ year_field := by decide
  simp [FilterOp.evalOn, MovieDoc.numField, h1]

/-- C5: with yearRange, minRating and titlePhrase all absent, `create_filter`
returns a filter whose conjunction has zero children, and that neutral filter
matches every document. -/
theorem create_filter_all_absent (t : String) (d : MovieDoc) :
    (create_filter none 0 false t).query.conjuncts = [] ∧
    (create_filter none 0 false t).matchesDoc d = true :=
  ⟨rfl, rfl⟩

/-- C6: the conjuncts of `create_filter` always appear in the fixed order
year, rating, title, each present exactly when its input is active and
omitted otherwise, and the resulting list is strictly sorted by that
field order. -/
theorem create_filter_ordered (yr : Option (ℤ × ℤ)) (r : ℚ) (sit : Bool)
    (t : String) :
    (create_filter yr r sit t).query.conjuncts =
      (match yr with
       | some (lo, hi) => [FilterOp.range lo hi true true year_field]
       | none => []) ++
      (if r = 0 then [] else [FilterOp.threshold r false rating_field]) ++
      (if sit then [FilterOp.match_phrase t title_field] else []) ∧
    (create_filter yr r sit t).query.conjuncts.Pairwise
      (fun a b => a.fieldRank < b.fieldRank) := by
  refine ⟨rfl, ?_⟩
  rcases yr with _ | ⟨lo, hi⟩ <;> by_cases hr : r = 0 <;> cases sit <;>
    simp [create_filter, hr, List.pairwise_cons, FilterOp.fieldRank]

/-- C7: whenever a yearRange (lo, hi) is supplied — with no validation, so
also when lo > hi — the first conjunct is a range condition over the year
field with exactly those bounds, both inclusive. -/
theorem create_filter_year_range (lo hi : ℤ) (r : ℚ) (sit : Bool)
    (t : String) :
    (create_filter (some (lo, hi)) r sit t).query.conjuncts.head? =
      some (FilterOp.range lo hi true true year_field) := by
  by_cases hr : r = 0 <;> cases sit <;> simp [create_filter, hr]

/-- C4: for every active minRating (a Python-truthy rating, i.e. nonzero),
`create_filter` emits a threshold condition on the rating field with an
exclusive lower bound, so a document whose rating equals the threshold
fails the filter. -/
theorem create_filter_rating_exclusive (yr : Option (ℤ × ℤ)) (r : ℚ)
    (sit : Bool) (t : String) (d : MovieDoc) (hr : r ≠ 0) :
    (∃ pre post, (create_filter yr r sit t).query.conjuncts =
        pre ++ FilterOp.threshold r false rating_field :: post) ∧
    (d.imdb_rating = r → (create_filter yr r sit t).matchesDoc d = false) := by
  have hmem : FilterOp.threshold r false rating_field ∈
      (create_filter yr r sit t).query.conjuncts := by
    rcases yr with _ | ⟨lo, hi⟩ <;> cases sit <;> simp [create_filter, hr]
  constructor
  · exact List.append_of_mem hmem
  · intro hd
    unfold SearchFilter.matchesDoc
    rw [List.all_eq_false]
    refine ⟨FilterOp.threshold r false rating_field, hmem, ?_⟩
    rw [evalOn_rating_threshold, hd]
    simp

/-- C9: `create_filter` is deterministic — calls with equal inputs return
structurally equal filters. -/
theorem create_filter_deterministic (yr yr' : Option (ℤ × ℤ)) (r r' : ℚ)
    (sit sit' : Bool) (t t' : String)
    (h1 : yr = yr') (h2 : r = r') (h3 : sit = sit') (h4 : t = t') :
    create_filter yr r sit t = create_filter yr' r' sit' t' := by
  rw [h1, h2, h3, h4]

/-- Witness for C9 at concrete inputs. -/
theorem create_filter_deterministic_witness :
    create_filter (some (1900, 2024)) 8 true "dune" =
      create_filter (some (1900, 2024)) 8 true "dune" :=
  create_filter_deterministic _ _ _ _ _ _ _ _ rfl rfl rfl rfl

/-- C10: when the search-in-title flag is set the phrase condition on the
title field is always the final conjunct, for every phrase; in particular
the empty phrase yields a phrase condition embedding the empty string
rather than being omitted. -/
theorem create_filter_title_unconditional (yr : Option (ℤ × ℤ)) (r : ℚ)
    (t : String) :
    (∃ pre, (create_filter yr r true t).query.conjuncts =
        pre ++ [FilterOp.match_phrase t title_field]) ∧
    (create_filter none 0 true "").query.conjuncts =
      [FilterOp.match_phrase "" title_field] := by
  refine ⟨⟨(match yr with
      | some (lo, hi) => [FilterOp.range lo hi true true year_field]
      | none => []) ++
      (if r = 0 then [] else [FilterOp.threshold r false rating_field]), ?_⟩, rfl⟩
  rfl

/-- Witness doc for C4: rating exactly at the threshold. -/
def thresholdDoc : MovieDoc := ⟨2000, 8, "Up"⟩

/-- Witness for C4: with minRating 8, a movie rated exactly 8 fails the
filter. -/
theorem create_filter_rating_exclusive_witness :
    (create_filter none 8 false "up").matchesDoc thresholdDoc = false :=
  (create_filter_rating_exclusive none 8 false "up" thresholdDoc
    (by norm_num)).2 rfl

/-- A stub embedding provider that always succeeds. -/
def embedStub : String → Except EmbeddingFailure (List ℚ) :=
  fun _ => Except.ok [1, 0, 2]

/-- A stub embedding provider that always fails. -/
def embedFailStub : String → Except EmbeddingFailure (List ℚ) :=
  fun _ => Except.error ⟨"provider unreachable"⟩

/-- Fixed hits a stub store returns, in descending score order. -/
def storeRows : List SearchRow :=
  [⟨[("Series_Title", "Interstellar")], 2⟩, ⟨[("Series_Title", "Gravity")], 1⟩]

/-- A stub store that returns `storeRows` for every request. -/
def storeStub : String → SearchRequest → SearchOptions →
    Except StoreQueryFailure (List SearchRow) :=
  fun _ _ _ => Except.ok storeRows

/-- A stub store that always fails. -/
def storeFailStub : String → SearchRequest → SearchOptions →
    Except StoreQueryFailure (List SearchRow) :=
  fun _ _ _ => Except.error ⟨"index missing"⟩

/-- C1: when the embedding succeeds and k ≥ 1, `search_couchbase` invokes the
store exactly once, with a request whose single vector query carries
num_candidates = k and with options whose limit is the same k; the result is
whatever that one store call yields, parsed. -/
theorem search_couchbase_k_propagates
    (embed : String → Except EmbeddingFailure (List ℚ))
    (store : String → SearchRequest → SearchOptions → Except StoreQueryFailure (List SearchRow))
    (idx key text : String) (k : ℤ) (fields : List String)
    (opts : SearchFilter) (emb : List ℚ)
    (hemb : embed text = Except.ok emb) (hk : 1 ≤ k) :
    search_couchbase embed store idx key text k fields opts =
      match store idx
          (SearchRequest.create (VectorSearch.from_vector_query ⟨key, emb, k⟩))
          ⟨k, fields, opts⟩ with
      | Except.error e => Except.error (SearchError.store e)
      | Except.ok rows => Except.ok (rows.map fun row => (row.fields, row.score)) := by
  simp only [search_couchbase, generate_embeddings, VectorQuery.create, hemb,
    if_pos hk]

/-- Witness for C1 at k = 5 with concrete stubs. -/
theorem search_couchbase_k_propagates_witness :
    search_couchbase embedStub storeStub "movies-index" "Overview_embedding"
        "space adventure" 5 ["*"] emptyFilter =
      Except.ok [([("Series_Title", "Interstellar")], 2),
        ([("Series_Title", "Gravity")], 1)] := by
  have h := search_couchbase_k_propagates embedStub storeStub "movies-index"
    "Overview_embedding" "space adventure" 5 ["*"] emptyFilter [1, 0, 2]
    rfl (by norm_num)
  simpa [storeStub, storeRows] using h

/-- C2: when the store returns a hit list, `search_couchbase` returns exactly
the map of that list to (fields, score) pairs — no re-filtering, re-ranking
or deduplication — and the i-th returned pair is the conversion of the i-th
store hit. -/
theorem search_couchbase_preserves_order
    (embed : String → Except EmbeddingFailure (List ℚ))
    (store : String → SearchRequest → SearchOptions → Except StoreQueryFailure (List SearchRow))
    (idx key text : String) (k : ℤ) (fields : List String)
    (opts : SearchFilter) (emb : List ℚ) (rows : List SearchRow)
    (hemb : embed text = Except.ok emb) (hk : 1 ≤ k)
    (hstore : store idx
        (SearchRequest.create (VectorSearch.from_vector_query ⟨key, emb, k⟩))
        ⟨k, fields, opts⟩ = Except.ok rows) :
    search_couchbase embed store idx key text k fields opts =
      Except.ok (rows.map fun row => (row.fields, row.score)) ∧
    ∀ i : Fin rows.length,
      (rows.map fun row => (row.fields, row.score)).get
          ⟨i.val, by simp⟩ =
        ((rows.get i).fields, (rows.get i).score) := by
  constructor
  · simp only [search_couchbase, generate_embeddings, VectorQuery.create,
      hemb, if_pos hk, hstore]
  · intro i
    simp [List.get_eq_getElem, List.getElem_map]

/-- Witness for C2 with a stub store returning two hits in fixed order. -/
theorem search_couchbase_preserves_order_witness :
    search_couchbase embedStub storeStub "movies-index" "Overview_embedding"
        "gravity" 2 ["*"] emptyFilter =
      Except.ok (storeRows.map fun row => (row.fields, row.score)) :=
  (search_couchbase_preserves_order embedStub storeStub "movies-index"
    "Overview_embedding" "gravity" 2 ["*"] emptyFilter [1, 0, 2] storeRows
    rfl (by norm_num) rfl).1

/-- C3: an embedding failure propagates as SearchError.embedding; a store
failure (reached once the embedding succeeded and k passed construction)
propagates as SearchError.store; and an error result is never the empty
Ok result. -/
theorem search_couchbase_propagates_failures
    (embed : String → Except EmbeddingFailure (List ℚ))
    (store : String → SearchRequest → SearchOptions → Except StoreQueryFailure (List SearchRow))
    (idx key text : String) (k : ℤ) (fields : List String)
    (opts : SearchFilter) :
    (∀ e, embed text = Except.error e →
      search_couchbase embed store idx key text k fields opts =
        Except.error (SearchError.embedding e)) ∧
    (∀ emb s, embed text = Except.ok emb → 1 ≤ k →
      store idx
          (SearchRequest.create (VectorSearch.from_vector_query ⟨key, emb, k⟩))
          ⟨k, fields, opts⟩ = Except.error s →
      search_couchbase embed store idx key text k fields opts =
        Except.error (SearchError.store s)) ∧
    (∀ e : SearchError,
      (Except.error e : Except SearchError (List (RowFields × ℚ))) ≠
        Except.ok []) := by
  refine ⟨?_, ?_, ?_⟩
  · intro e he
    simp only [search_couchbase, generate_embeddings, he]
  · intro emb s he hk hs
    simp only [search_couchbase, generate_embeddings, he, VectorQuery.create,
      if_pos hk, hs]
  · intro e h
    exact Except.noConfusion h

/-- Witness for C3: a failing embedding stub yields the embedding error
kind. -/
theorem search_couchbase_propagates_failures_witness :
    search_couchbase embedFailStub storeStub "movies-index"
        "Overview_embedding" "space adventure" 5 ["*"] emptyFilter =
      Except.error (SearchError.embedding ⟨"provider unreachable"⟩) :=
  (search_couchbase_propagates_failures embedFailStub storeStub "movies-index"
    "Overview_embedding" "space adventure" 5 ["*"] emptyFilter).1
    ⟨"provider unreachable"⟩ rfl

/-- C8: for k < 1 the executor fails with a configuration error, and its
result does not depend on the store at all — no request is submitted. -/
theorem search_couchbase_rejects_small_k
    (embed : String → Except EmbeddingFailure (List ℚ))
    (store store' : String → SearchRequest → SearchOptions → Except StoreQueryFailure (List SearchRow))
    (idx key text : String) (k : ℤ) (fields : List String)
    (opts : SearchFilter) (emb : List ℚ)
    (hemb : embed text = Except.ok emb) (hk : k < 1) :
    search_couchbase embed store idx key text k fields opts =
      Except.error (SearchError.config ⟨"num_candidates must be >= 1"⟩) ∧
    search_couchbase embed store idx key text k fields opts =
      search_couchbase embed store' idx key text k fields opts := by
  have hk' : ¬ 1 ≤ k := by omega
  constructor <;>
    simp only [search_couchbase, generate_embeddings, hemb,
      VectorQuery.create, if_neg hk']

/-- Witness for C8 at k = 0. -/
theorem search_couchbase_rejects_small_k_witness :
    search_couchbase embedStub storeStub "movies-index" "Overview_embedding"
        "space adventure" 0 ["*"] emptyFilter =
      Except.error (SearchError.config ⟨"num_candidates must be >= 1"⟩) :=
  (search_couchbase_rejects_small_k embedStub storeStub storeFailStub
    "movies-index" "Overview_embedding" "space adventure" 0 ["*"] emptyFilter
    [1, 0, 2] rfl (by norm_num)).1
